import Mathlib

/-!
Shallow embedding of the PN532 serial driver (testutils/pn532/pn532.py).

Bytes are modelled as natural numbers; the Python byte-masking operations
(`& 0xFF`) are explicit `% 256` or bitwise operations on `Nat`.  Fallible
code (Python exceptions) is modelled with an explicit result type `PyResult`
whose `raised` constructor carries the exception that the Python code would
raise.  The serial channel is modelled as a list of bytes still pending to
be read; `device.read(n)` becomes `List.take n` / `List.drop n` (a serial
read returns at most `n` bytes and may return fewer on timeout, which
`take` reproduces when the stream is short).
-/

namespace PN532

/-- A Python exception, as far as the claims need to distinguish them. -/
inductive PyExc where
  | nameError (nm : String)
  | runtimeError (msg : String)
  | indexError
  | typeError (msg : String)
deriving DecidableEq

/-- Result of running a piece of Python code: either a raised exception or a
value (for functions returning `None` the value type is an `Option`). -/
inductive PyResult (α : Type) where
  | raised (e : PyExc)
  | value (a : α)
deriving DecidableEq

/-- Two's-complement negation of a byte: models the Python expression
`((~s & 0xFF) + 0x01) & 0xFF` (for arbitrary non-negative `s`,
`~s & 0xFF = 255 - s % 256`). -/
def negByte (s : Nat) : Nat := ((255 - s % 256) + 1) % 256

/-- `PN532.construct_frame`: preamble, start code, length byte
`(len(data) + 1) & 0xFF`, length checksum, host marker `0xD4`, the data
bytes, the data checksum over `0xD4 + sum(data)`, and the postamble. -/
def construct_frame (data : List Nat) : List Nat :=
  [0x00, 0x00, 0xFF, (data.length + 1) % 256, negByte (data.length + 1), 0xD4]
    ++ data ++ [negByte (0xD4 + data.sum), 0x00]

/-- The fixed 6-byte ACK sequence `00 00 FF 00 FF 00`. -/
def ackFrame : List Nat := [0x00, 0x00, 0xFF, 0x00, 0xFF, 0x00]

/-- `PN532.get_device_response` on a pending byte stream: read 6 bytes and
compare them (log-only) against the ACK, read a 6-byte frame head, check the
length checksum (returning `None` on failure), check the device marker
`0xD5` (returning `None` on mismatch), read `data_len - 1` payload bytes,
one data-checksum byte (mismatch is log-only) and one postamble byte, and
return the payload.  Reads of a single byte from an exhausted stream model
the Python `bytearray(self.device.read(1))[0]` raising `IndexError`; the
accesses `frame[3]`, `frame[4]`, `frame[5]` likewise raise when the second
read returned fewer than 6 bytes. -/
def get_device_response (stream : List Nat) : PyResult (Option (List Nat)) :=
  let frame1 := stream.take 6
  let s1 := stream.drop 6
  if frame1.length = 0 then .value none
  else
    -- an ACK mismatch is only logged
    let frame := s1.take 6
    let s2 := s1.drop 6
    if frame.length = 0 then .value none
    else
      -- a start-code mismatch on frame[0:3] is only logged
      match frame.get? 3 with
      | none => .raised .indexError
      | some data_len =>
        match frame.get? 4 with
        | none => .raised .indexError
        | some length_checksum =>
          if (length_checksum + data_len) % 256 ≠ 0 then .value none
          else
            match frame.get? 5 with
            | none => .raised .indexError
            | some tfi =>
              if tfi ≠ 0xD5 then .value none
              else
                let data_packet := s2.take (data_len - 1)
                let s3 := s2.drop (data_len - 1)
                match s3.head? with
                | none => .raised .indexError
                | some _data_checksum =>
                  -- a data-checksum mismatch is only logged
                  match s3.tail.head? with
                  | none => .raised .indexError
                  | some _postamble =>
                    -- a nonzero postamble is only logged
                    .value (some data_packet)

/-- Modelled from the spec (§3): a response frame is identical to a frame
built by `construct_frame` except that the host marker `0xD4` is replaced by
the device marker `0xD5` and the data checksum is computed over that marker.
The driver itself never builds such a frame (they come from the device), so
this definition follows the spec's words; it is used to state the amended
round-trip property. -/
def construct_device_frame (data : List Nat) : List Nat :=
  [0x00, 0x00, 0xFF, (data.length + 1) % 256, negByte (data.length + 1), 0xD5]
    ++ data ++ [negByte (0xD5 + data.sum), 0x00]

/-- Parsing success for a well-formed device-marked frame that follows a
6-byte ACK: if the length checksum is consistent with the length byte
`p.length + 1`, the parser returns exactly the payload `p`. -/
theorem get_device_response_success (C D post : Nat) (p : List Nat)
    (hLC : (C + (p.length + 1)) % 256 = 0) :
    get_device_response
      (ackFrame ++ (0 :: 0 :: 0xFF :: (p.length + 1) :: C :: 0xD5 :: (p ++ [D, post]))) =
      .value (some p) := by
  show get_device_response
      (0 :: 0 :: 0xFF :: 0 :: 0xFF :: 0 ::
        0 :: 0 :: 0xFF :: (p.length + 1) :: C :: 0xD5 :: (p ++ [D, post])) = .value (some p)
  unfold get_device_response
  simp [hLC, Nat.add_sub_cancel, List.take_left, List.drop_left]

/-- C7: for any payload, the length byte plus the length-checksum byte of a
constructed frame sum to 0 mod 256, and the data-checksum byte plus
`0xD4 + sum(payload)` sum to 0 mod 256. -/
theorem construct_frame_checksums (data : List Nat) :
    ((construct_frame data).getD 4 0 + (construct_frame data).getD 3 0) % 256 = 0 ∧
    ((construct_frame data).getD (6 + data.length) 0 + (0xD4 + data.sum)) % 256 = 0 := by
  constructor
  · show (negByte (data.length + 1) + (data.length + 1) % 256) % 256 = 0
    unfold negByte
    omega
  · have hsplit : construct_frame data =
        ([0x00, 0x00, 0xFF, (data.length + 1) % 256, negByte (data.length + 1), 0xD4]
          ++ data) ++ [negByte (0xD4 + data.sum), 0x00] := by
      simp [construct_frame]
    have hlen :
        ([0x00, 0x00, 0xFF, (data.length + 1) % 256, negByte (data.length + 1), 0xD4]
          ++ data).length = 6 + data.length := by
      simp
      omega
    rw [hsplit, List.getD_append_right _ _ _ _ (by omega), hlen]
    simp only [Nat.sub_self, List.getD]
    show (negByte (0xD4 + data.sum) + (0xD4 + data.sum)) % 256 = 0
    unfold negByte
    omega

set_option maxRecDepth 4000 in
/-- C8 counterexample: for a payload of length 255 the LEN byte of the
constructed frame is `(255 + 1) & 0xFF = 0`, not `len(payload) + 1 = 256`. -/
theorem construct_frame_len_byte_counterexample :
    (construct_frame (List.replicate 255 0)).getD 3 0 = 0 ∧
    (construct_frame (List.replicate 255 0)).getD 3 0 ≠
      (List.replicate 255 (0 : Nat)).length + 1 := by
  decide

/-- C8 amended: the LEN byte of a constructed frame is
`(len(payload) + 1) mod 256`, which equals `len(payload) + 1` exactly when
the payload holds at most 254 bytes. -/
theorem construct_frame_len_byte (data : List Nat) :
    (construct_frame data).getD 3 0 = (data.length + 1) % 256 ∧
    (data.length ≤ 254 → (construct_frame data).getD 3 0 = data.length + 1) := by
  refine ⟨rfl, fun h => ?_⟩
  show (data.length + 1) % 256 = data.length + 1
  omega

/-- C8 witness: a concrete three-byte payload satisfies the length bound and
its LEN byte is 4. -/
theorem construct_frame_len_byte_witness :
    (construct_frame [1, 2, 3]).getD 3 0 = 4 :=
  (construct_frame_len_byte [1, 2, 3]).2 (by decide)

/-- C1 counterexample: the frame built by `construct_frame` for payload
`[0x02]` carries the host marker `0xD4`, but `get_device_response` demands
the device marker `0xD5` and returns `None`; the payload is not recovered. -/
theorem frame_roundtrip_counterexample :
    get_device_response (ackFrame ++ construct_frame [0x02]) = .value none ∧
    get_device_response (ackFrame ++ construct_frame [0x02]) ≠ .value (some [0x02]) := by
  decide

/-- C1 amended: for any payload of length 1..250, parsing the frame built
with the device marker `0xD5` in place of the host marker (the response-frame
layout of spec §3), after the 6-byte ACK, recovers exactly the payload. -/
theorem frame_roundtrip_device_marker (p : List Nat)
    (h1 : 1 ≤ p.length) (h2 : p.length ≤ 250) :
    get_device_response (ackFrame ++ construct_device_frame p) = .value (some p) := by
  have hL : (p.length + 1) % 256 = p.length + 1 := Nat.mod_eq_of_lt (by omega)
  have hshape : construct_device_frame p =
      0 :: 0 :: 0xFF :: (p.length + 1) :: negByte (p.length + 1) :: 0xD5 ::
        (p ++ [negByte (0xD5 + p.sum), 0]) := by
    simp [construct_device_frame, hL]
  rw [hshape]
  exact get_device_response_success _ _ _ p (by unfold negByte; omega)

/-- C1 witness: the round-trip at the concrete two-byte payload `[0x4B, 0x01]`. -/
theorem frame_roundtrip_device_marker_witness :
    get_device_response (ackFrame ++ construct_device_frame [0x4B, 0x01]) =
      .value (some [0x4B, 0x01]) :=
  frame_roundtrip_device_marker [0x4B, 0x01] (by decide) (by decide)

/-- C6 counterexample: a response head whose length byte 2 and
length-checksum byte 0xFF do not cancel mod 256 makes `get_device_response`
return `None` even though the rest of the stream is a well-formed frame; the
same stream with the correct checksum byte 0xFE yields the payload.  The
length-checksum failure therefore aborts the parse. -/
theorem length_checksum_abort_counterexample :
    get_device_response (ackFrame ++ [0, 0, 0xFF, 2, 0xFF, 0xD5, 0xAB, 0x80, 0]) =
      .value none ∧
    get_device_response (ackFrame ++ [0, 0, 0xFF, 2, 0xFE, 0xD5, 0xAB, 0x80, 0]) =
      .value (some [0xAB]) ∧
    get_device_response (ackFrame ++ [0, 0, 0xFF, 2, 0xFF, 0xD5, 0xAB, 0x80, 0]) ≠
      .value (some [0xAB]) := by
  decide

/-- C6 amended: during response parsing a length-checksum failure is logged
and aborts the parse (the function returns `None` whatever follows); it is
the data-checksum failure that is non-fatal: a frame whose data-checksum
byte is arbitrary (hence possibly wrong) still yields its payload. -/
theorem length_checksum_aborts_parse :
    (∀ (ack : List Nat) (l c d : Nat) (rest : List Nat), ack.length = 6 →
        (c + l) % 256 ≠ 0 →
        get_device_response (ack ++ (0 :: 0 :: 0xFF :: l :: c :: d :: rest)) =
          .value none) ∧
    (∀ cks : Nat,
        get_device_response (ackFrame ++ [0, 0, 0xFF, 2, 0xFE, 0xD5, 0xAB, cks, 0]) =
          .value (some [0xAB])) := by
  constructor
  · intro ack l c d rest hack hcl
    unfold get_device_response
    rw [List.take_left' hack, List.drop_left' hack]
    simp [hack, hcl]
  · intro cks
    rfl

/-- C6 amended witness: a concrete stream with a failing length checksum is
rejected with `None`. -/
theorem length_checksum_aborts_parse_witness :
    get_device_response ([0, 0, 0xFF, 0, 0xFF, 0] ++
      (0 :: 0 :: 0xFF :: 2 :: 0xFF :: 0xD5 :: [0xAB, 0x80, 0])) = .value none :=
  length_checksum_aborts_parse.1 [0, 0, 0xFF, 0, 0xFF, 0] 2 0xFF 0xD5 [0xAB, 0x80, 0]
    (by decide) (by decide)

/-- Descriptor produced by `poll_a` (the arguments of `tag.TypeATag`). -/
structure TypeATag where
  target_id : Nat
  sense_res : List Nat
  sel_res : Nat
  nfcid : List Nat
  ats : List Nat
deriving DecidableEq

/-- `PN532.poll_a`, as a function of the transport response frame
(`None` models `send_frame` returning no frame, `some []` an empty one).
An unexpected command code in the response is only logged.  Element
accesses `rsp[0]` on an exhausted buffer raise `IndexError`; the Python
slices (`rsp[0:2]`, `rsp[0:n]`) never raise and become `take`/`drop`.  The
slice `rsp[0 : ats_len - 1]` with `ats_len = 0` is Python `rsp[0:-1]`,
i.e. all but the last element. -/
def poll_a (rsp? : Option (List Nat)) : PyResult (Option TypeATag) :=
  match rsp? with
  | none => .raised (.runtimeError "No response for send poll_a frame.")
  | some rsp0 =>
    if rsp0.length = 0 then .raised (.runtimeError "No response for send poll_a frame.")
    else
      let r1 := rsp0.tail
      match r1.head? with
      | none => .raised .indexError
      | some num_targets =>
        if num_targets = 0 then .value none
        else
          let r2 := r1.tail
          match r2.head? with
          | none => .raised .indexError
          | some target_id =>
            let r3 := r2.tail
            let sense_res := r3.take 2
            let r4 := r3.drop 2
            match r4.head? with
            | none => .raised .indexError
            | some sel_res =>
              let r5 := r4.tail
              match r5.head? with
              | none => .raised .indexError
              | some nfcid_len =>
                let r6 := r5.tail
                let nfcid := r6.take nfcid_len
                let r7 := r6.drop nfcid_len
                match r7.head? with
                | none => .raised .indexError
                | some ats_len =>
                  let r8 := r7.tail
                  let ats := if ats_len = 0 then r8.dropLast else r8.take (ats_len - 1)
                  .value (some ⟨target_id, sense_res, sel_res, nfcid, ats⟩)

/-- `PN532.poll_b`, as a function of the three transport responses it may
consume: the discovery response, the broadcast-deselect response and the
WUPB response.  The result carries the arguments of `tag.TypeBTag`. -/
def poll_b (rsp? bc? wupb? : Option (List Nat)) : PyResult (Nat × List Nat) :=
  match rsp? with
  | none => .raised (.runtimeError "No response for send poll_b frame.")
  | some rsp0 =>
    if rsp0.length = 0 then .raised (.runtimeError "No response for send poll_b frame.")
    else
      -- an unexpected command code in the response is only logged
      match rsp0.tail.head? with
      | none => .raised .indexError
      | some _afi =>
        -- send_broadcast of the deselect command
        match bc? with
        | none => .raised (.runtimeError "No response for send broadcast.")
        | some bc =>
          if bc.length = 0 then .raised (.runtimeError "No response for send broadcast.")
          else
            match wupb? with
            | none => .raised (.runtimeError "No response for WUPB command")
            | some w =>
              if w.length = 0 then .raised (.runtimeError "No response for WUPB command")
              else .value (0x03, w)

/-- C2 counterexample: when the transport returns no response frame, both
`poll_a` and `poll_b` raise a fatal `RuntimeError` instead of completing
normally with a no-target outcome. -/
theorem poll_no_response_counterexample :
    poll_a none = .raised (.runtimeError "No response for send poll_a frame.") ∧
    poll_b none none none = .raised (.runtimeError "No response for send poll_b frame.") ∧
    poll_a none ≠ .value none := by
  refine ⟨rfl, rfl, by decide⟩

/-- C2 amended: absence of a response frame to the discovery command makes
`poll_a` and `poll_b` raise a fatal error; the normal, non-fatal no-target
outcome of `poll_a` is produced when a response frame arrives whose
target-count byte is zero. -/
theorem poll_no_response_raises :
    (∃ e, poll_a none = .raised e) ∧
    (∃ e, poll_b none none none = .raised e) ∧
    (∀ (code : Nat) (rest : List Nat), poll_a (some (code :: 0 :: rest)) = .value none) := by
  exact ⟨⟨_, rfl⟩, ⟨_, rfl⟩, fun code rest => rfl⟩

/-- The `_BITRATE` table (line 29): bit rate in kbit/s to 3-bit field code. -/
def _BITRATE : List (Nat × Nat) := [(106, 0b000), (212, 0b001), (424, 0b010), (848, 0b011)]

/-- The TX_MODE / RX_MODE bit-rate field update from `transceive_raw`:
`tx_mode = (tx_mode & 0b1_000_1_1_11) | (code << 4)`. -/
def set_bitrate_field (mode code : Nat) : Nat :=
  (mode &&& 0b10001111) ||| (code <<< 4)

/-- C3 counterexample: starting from TX_MODE `0b10100101`, the masked update
with bit-rate code `0b001` produces `0b10010101`, not the `0b10011101` the
spec states (the spec value flips bit 3, which lies outside the field). -/
theorem txmode_bitrate_counterexample :
    set_bitrate_field 0b10100101 0b001 = 0b10010101 ∧
    set_bitrate_field 0b10100101 0b001 ≠ 0b10011101 := by
  decide

/-- C3 amended: starting from TX_MODE `0b10100101`, setting the bit-rate
field to `0b001` yields `0b10010101`, and every bit of the 8-bit register
outside positions 4..6 is preserved. -/
theorem txmode_bitrate_update :
    set_bitrate_field 0b10100101 0b001 = 0b10010101 ∧
    (∀ i, i < 8 → i ≠ 4 → i ≠ 5 → i ≠ 6 →
      (set_bitrate_field 0b10100101 0b001).testBit i = (0b10100101 : Nat).testBit i) := by
  decide

/-- C3 witness: bit 3 is preserved by the update. -/
theorem txmode_bitrate_update_witness :
    (set_bitrate_field 0b10100101 0b001).testBit 3 = (0b10100101 : Nat).testBit 3 :=
  txmode_bitrate_update.2 3 (by decide) (by decide) (by decide) (by decide)

/-- Python `dict.get` on an association-list model of a dict. -/
def cacheGet (cache : List (Nat × Nat)) (r : Nat) : Option Nat :=
  (cache.find? (fun q => q.1 == r)).map Prod.snd

/-- Python dict merge `{**cache, **regs}`: the keys of `cache` with values
overridden by `regs` where present, followed by the keys new in `regs`. -/
def dictMerge (cache regs : List (Nat × Nat)) : List (Nat × Nat) :=
  cache.map (fun q => match cacheGet regs q.1 with | some v => (q.1, v) | none => q)
    ++ regs.filter (fun q => !(cache.map Prod.fst).contains q.1)

/-- `PN532.write_registers` on an explicit cache state: computes the subset
of pairs differing from the cache (all pairs when not caching), issues no
command when that subset is empty, and otherwise issues one WRITE_REGISTER
command and merges the full input into the cache.  Returns the new cache
and the number of device commands issued. -/
def write_registers (cache registers : List (Nat × Nat)) (use_cache : Bool) :
    List (Nat × Nat) × Nat :=
  let difference :=
    registers.filter (fun q => !use_cache || !(cacheGet cache q.1 == some q.2))
  if difference.isEmpty then (cache, 0)
  else (dictMerge cache registers, 1)

/-- Two consecutive `write_registers` calls with the same arguments, started
from `cache`; returns the total number of device commands issued. -/
def write_registers_twice (cache registers : List (Nat × Nat)) (use_cache : Bool) : Nat :=
  let r1 := write_registers cache registers use_cache
  r1.2 + (write_registers r1.1 registers use_cache).2

/-- C5: with caching enabled, a `write_registers` call whose every pair
already equals the cached value issues no device command; consequently two
calls writing `{0x6331: 1}` from a fresh cache issue exactly one command
with `cache=True` and two commands with `cache=False`. -/
theorem write_registers_cache_elision :
    (∀ cache regs, (∀ q ∈ regs, cacheGet cache q.1 = some q.2) →
        (write_registers cache regs true).2 = 0) ∧
    write_registers_twice [] [(0x6331, 1)] true = 1 ∧
    write_registers_twice [] [(0x6331, 1)] false = 2 := by
  refine ⟨?_, by decide, by decide⟩
  intro cache regs h
  unfold write_registers
  have hnil : regs.filter (fun q => !true || !(cacheGet cache q.1 == some q.2)) = [] := by
    rw [List.filter_eq_nil_iff]
    intro q hq
    simp [h q hq]
  rw [hnil]
  rfl

/-- C5 witness: a singleton cache already containing the written pair
absorbs the write without a device command. -/
theorem write_registers_cache_elision_witness :
    (write_registers [(0x6331, 1)] [(0x6331, 1)] true).2 = 0 :=
  write_registers_cache_elision.1 [(0x6331, 1)] [(0x6331, 1)] (by decide)

/-- `PN532.execute_command` as a function of the transport response frame:
no frame gives `None`, an echoed code different from `command + 1` raises,
otherwise the echoed code is stripped. -/
def execute_command (command : Nat) (rsp? : Option (List Nat)) :
    PyResult (Option (List Nat)) :=
  match rsp? with
  | none => .value none
  | some rsp =>
    if rsp.length = 0 then .value none
    else if rsp.headD 0 ≠ command + 1 then
      .raised (.runtimeError "Response code does not match the command")
    else .value (some rsp.tail)

/-- The code of `transceive_raw` that consumes the result of
`execute_command(Command.IN_COMMUNICATE_THRU, data)`:
`if rsp[0] != 0: return None`, else strip the status byte and return the
rest.  Indexing an absent (`None`) result raises `TypeError`. -/
def transceive_raw_response_step (r : PyResult (Option (List Nat))) :
    PyResult (Option (List Nat)) :=
  match r with
  | .raised e => .raised e
  | .value none => .raised (.typeError "NoneType object is not subscriptable")
  | .value (some rsp) =>
    match rsp.head? with
    | none => .raised .indexError
    | some b => if b ≠ 0 then .value none else .value (some rsp.tail)

/-- C9: when the transport returns no frame, `execute_command` yields the
absent result, and the unguarded `rsp[0]` in `transceive_raw` then raises a
`TypeError` instead of producing the no-data result `None`: the error branch
is reachable. -/
theorem transceive_raw_none_unguarded :
    execute_command 0x42 none = .value none ∧
    transceive_raw_response_step (execute_command 0x42 none) =
      .raised (.typeError "NoneType object is not subscriptable") ∧
    transceive_raw_response_step (execute_command 0x42 none) ≠ .value none := by
  refine ⟨rfl, rfl, by decide⟩

/-- The names visible in the body of `PN532.read_registers` (its parameters
and locals together with the module-level bindings of pn532.py).  The name
args used by the no-response error message is not among them. -/
def read_registers_names : List String :=
  ["self", "registers", "cache", "data", "rsp",
   "logging", "serial", "struct", "IntEnum", "tag", "hexlify", "comports",
   "mobly_logger", "_LONG_PREAMBLE", "_BITRATE", "_FRAMING", "_TIMEOUT",
   "crc16a", "with_crc16a", "Command", "Register", "REG", "RFConfigItem",
   "_REGISTER_CONFIGURATION_FOR_TYPE", "PN532"]

/-- Evaluating the no-response branch of `read_registers`: the f-string of
the intended `RuntimeError` interpolates the name args, so Python first
resolves that name; since it is unbound, a `NameError` is raised before the
`RuntimeError` can be constructed. -/
def read_registers_noresponse_exc : PyExc :=
  if "args" ∈ read_registers_names then
    .runtimeError "No response for read registers args."
  else .nameError "args"

/-- `PN532.read_registers` on a cache state, as a function of the transport
response: cached values are returned without a device command when caching
is allowed and every address is cached; with no response the faulty error
branch is evaluated. -/
def read_registers (cache_st : List (Nat × Nat)) (regs : List Nat) (use_cache : Bool)
    (rsp? : Option (List Nat)) : PyResult (List Nat) :=
  if use_cache && regs.all (fun r => (cacheGet cache_st r).isSome) then
    .value (regs.map (fun r => (cacheGet cache_st r).getD 0))
  else
    match rsp? with
    | none => .raised read_registers_noresponse_exc
    | some rsp =>
      if rsp.length = 0 then .raised read_registers_noresponse_exc
      else .value rsp

/-- C10: with no device response, `read_registers` fails with the
name-resolution error for args, not with the intended `RuntimeError`
carrying the no-response message. -/
theorem read_registers_noresponse_name_error :
    read_registers [] [0x6331] false none = .raised (.nameError "args") ∧
    (∀ msg, read_registers [] [0x6331] false none ≠ .raised (.runtimeError msg)) := by
  have h1 : read_registers [] [0x6331] false none = .raised (.nameError "args") := by
    decide
  refine ⟨h1, fun msg hc => ?_⟩
  rw [h1] at hc
  simp at hc


/-- The `_TIMEOUT` table (line 33): the Python dict comprehension
`{n: 100 * 2 ** (n - 1) for n in range(0x01, 0x10)}`.  `range` stops before
`0x10`, so the table holds indices 1..15 only, in insertion order. -/
def _TIMEOUT : List (Nat × Nat) := (List.range 15).map (fun i => (i + 1, 100 * 2 ^ i))

/-- The timeout-index selection of `transceive_raw` (line 504):
`next((idx for idx, t in _TIMEOUT.items() if t >= timeout * 1000000), 0x10)`.
The caller-supplied timeout in seconds is modelled as an exact rational. -/
def timeout_index (timeout : ℚ) : Nat :=
  match _TIMEOUT.find? (fun q => decide (timeout * 1000000 ≤ (q.2 : ℚ))) with
  | some q => q.1
  | none => 0x10

/-- The timeout table written out. -/
theorem timeout_table_eq : _TIMEOUT =
    [(1, 100), (2, 200), (3, 400), (4, 800), (5, 1600), (6, 3200), (7, 6400),
     (8, 12800), (9, 25600), (10, 51200), (11, 102400), (12, 204800),
     (13, 409600), (14, 819200), (15, 1638400)] := by
  decide

/-- Monotonicity of the timeout thresholds. -/
theorem timeout_le_thresh {u : ℚ} {m k : Nat} (hcon : u ≤ 100 * 2 ^ (m - 1))
    (hmk : m - 1 ≤ k) : u ≤ 100 * 2 ^ k := by
  have h2 : (2 : ℚ) ^ (m - 1) ≤ 2 ^ k := pow_le_pow_right₀ (by norm_num) hmk
  linarith

/-- C4: for every caller-supplied timeout t (in seconds), `timeout_index`
returns the smallest index n in 1..16 whose table value `100 * 2^(n-1)` us
is at least `t * 10^6` us, and returns 16 when no such index exists; in
particular t = 0.00005 s selects index 1 and t = 5.0 s selects index 16. -/
theorem timeout_index_smallest :
    (∀ t : ℚ,
      (∃ n, 1 ≤ n ∧ n ≤ 16 ∧ t * 1000000 ≤ 100 * 2 ^ (n - 1) ∧ timeout_index t = n ∧
        ∀ m, 1 ≤ m → m < n → ¬(t * 1000000 ≤ 100 * 2 ^ (m - 1))) ∨
      (timeout_index t = 16 ∧ ∀ n, 1 ≤ n → n ≤ 16 → ¬(t * 1000000 ≤ 100 * 2 ^ (n - 1)))) ∧
    timeout_index (1 / 20000) = 1 ∧ timeout_index 5 = 16 := by
  refine ⟨?_, ?_, ?_⟩
  · intro t
    by_cases h1 : t * 1000000 ≤ 100
    · left
      refine ⟨1, le_rfl, by norm_num, by norm_num; exact h1, ?_, ?_⟩
      · unfold timeout_index
        rw [timeout_table_eq, List.find?_cons_of_pos _ (by simpa using h1)]
      · intro m hm1 hmk hcon
        omega
    · by_cases h2 : t * 1000000 ≤ 200
      · left
        refine ⟨2, by norm_num, by norm_num, by norm_num; exact h2, ?_, ?_⟩
        · unfold timeout_index
          rw [timeout_table_eq, List.find?_cons_of_neg _ (by simpa using h1),
              List.find?_cons_of_pos _ (by simpa using h2)]
        · intro m hm1 hmk hcon
          apply h1
          have hle := timeout_le_thresh hcon (show m - 1 ≤ 0 by omega)
          norm_num at hle
          exact hle
      · by_cases h3 : t * 1000000 ≤ 400
        · left
          refine ⟨3, by norm_num, by norm_num, by norm_num; exact h3, ?_, ?_⟩
          · unfold timeout_index
            rw [timeout_table_eq, List.find?_cons_of_neg _ (by simpa using h1), List.find?_cons_of_neg _ (by simpa using h2),
                List.find?_cons_of_pos _ (by simpa using h3)]
          · intro m hm1 hmk hcon
            apply h2
            have hle := timeout_le_thresh hcon (show m - 1 ≤ 1 by omega)
            norm_num at hle
            exact hle
        · by_cases h4 : t * 1000000 ≤ 800
          · left
            refine ⟨4, by norm_num, by norm_num, by norm_num; exact h4, ?_, ?_⟩
            · unfold timeout_index
              rw [timeout_table_eq, List.find?_cons_of_neg _ (by simpa using h1), List.find?_cons_of_neg _ (by simpa using h2), List.find?_cons_of_neg _ (by simpa using h3),
                  List.find?_cons_of_pos _ (by simpa using h4)]
            · intro m hm1 hmk hcon
              apply h3
              have hle := timeout_le_thresh hcon (show m - 1 ≤ 2 by omega)
              norm_num at hle
              exact hle
          · by_cases h5 : t * 1000000 ≤ 1600
            · left
              refine ⟨5, by norm_num, by norm_num, by norm_num; exact h5, ?_, ?_⟩
              · unfold timeout_index
                rw [timeout_table_eq, List.find?_cons_of_neg _ (by simpa using h1), List.find?_cons_of_neg _ (by simpa using h2), List.find?_cons_of_neg _ (by simpa using h3), List.find?_cons_of_neg _ (by simpa using h4),
                    List.find?_cons_of_pos _ (by simpa using h5)]
              · intro m hm1 hmk hcon
                apply h4
                have hle := timeout_le_thresh hcon (show m - 1 ≤ 3 by omega)
                norm_num at hle
                exact hle
            · by_cases h6 : t * 1000000 ≤ 3200
              · left
                refine ⟨6, by norm_num, by norm_num, by norm_num; exact h6, ?_, ?_⟩
                · unfold timeout_index
                  rw [timeout_table_eq, List.find?_cons_of_neg _ (by simpa using h1), List.find?_cons_of_neg _ (by simpa using h2), List.find?_cons_of_neg _ (by simpa using h3), List.find?_cons_of_neg _ (by simpa using h4), List.find?_cons_of_neg _ (by simpa using h5),
                      List.find?_cons_of_pos _ (by simpa using h6)]
                · intro m hm1 hmk hcon
                  apply h5
                  have hle := timeout_le_thresh hcon (show m - 1 ≤ 4 by omega)
                  norm_num at hle
                  exact hle
              · by_cases h7 : t * 1000000 ≤ 6400
                · left
                  refine ⟨7, by norm_num, by norm_num, by norm_num; exact h7, ?_, ?_⟩
                  · unfold timeout_index
                    rw [timeout_table_eq, List.find?_cons_of_neg _ (by simpa using h1), List.find?_cons_of_neg _ (by simpa using h2), List.find?_cons_of_neg _ (by simpa using h3), List.find?_cons_of_neg _ (by simpa using h4), List.find?_cons_of_neg _ (by simpa using h5), List.find?_cons_of_neg _ (by simpa using h6),
                        List.find?_cons_of_pos _ (by simpa using h7)]
                  · intro m hm1 hmk hcon
                    apply h6
                    have hle := timeout_le_thresh hcon (show m - 1 ≤ 5 by omega)
                    norm_num at hle
                    exact hle
                · by_cases h8 : t * 1000000 ≤ 12800
                  · left
                    refine ⟨8, by norm_num, by norm_num, by norm_num; exact h8, ?_, ?_⟩
                    · unfold timeout_index
                      rw [timeout_table_eq, List.find?_cons_of_neg _ (by simpa using h1), List.find?_cons_of_neg _ (by simpa using h2), List.find?_cons_of_neg _ (by simpa using h3), List.find?_cons_of_neg _ (by simpa using h4), List.find?_cons_of_neg _ (by simpa using h5), List.find?_cons_of_neg _ (by simpa using h6), List.find?_cons_of_neg _ (by simpa using h7),
                          List.find?_cons_of_pos _ (by simpa using h8)]
                    · intro m hm1 hmk hcon
                      apply h7
                      have hle := timeout_le_thresh hcon (show m - 1 ≤ 6 by omega)
                      norm_num at hle
                      exact hle
                  · by_cases h9 : t * 1000000 ≤ 25600
                    · left
                      refine ⟨9, by norm_num, by norm_num, by norm_num; exact h9, ?_, ?_⟩
                      · unfold timeout_index
                        rw [timeout_table_eq, List.find?_cons_of_neg _ (by simpa using h1), List.find?_cons_of_neg _ (by simpa using h2), List.find?_cons_of_neg _ (by simpa using h3), List.find?_cons_of_neg _ (by simpa using h4), List.find?_cons_of_neg _ (by simpa using h5), List.find?_cons_of_neg _ (by simpa using h6), List.find?_cons_of_neg _ (by simpa using h7), List.find?_cons_of_neg _ (by simpa using h8),
                            List.find?_cons_of_pos _ (by simpa using h9)]
                      · intro m hm1 hmk hcon
                        apply h8
                        have hle := timeout_le_thresh hcon (show m - 1 ≤ 7 by omega)
                        norm_num at hle
                        exact hle
                    · by_cases h10 : t * 1000000 ≤ 51200
                      · left
                        refine ⟨10, by norm_num, by norm_num, by norm_num; exact h10, ?_, ?_⟩
                        · unfold timeout_index
                          rw [timeout_table_eq, List.find?_cons_of_neg _ (by simpa using h1), List.find?_cons_of_neg _ (by simpa using h2), List.find?_cons_of_neg _ (by simpa using h3), List.find?_cons_of_neg _ (by simpa using h4), List.find?_cons_of_neg _ (by simpa using h5), List.find?_cons_of_neg _ (by simpa using h6), List.find?_cons_of_neg _ (by simpa using h7), List.find?_cons_of_neg _ (by simpa using h8), List.find?_cons_of_neg _ (by simpa using h9),
                              List.find?_cons_of_pos _ (by simpa using h10)]
                        · intro m hm1 hmk hcon
                          apply h9
                          have hle := timeout_le_thresh hcon (show m - 1 ≤ 8 by omega)
                          norm_num at hle
                          exact hle
                      · by_cases h11 : t * 1000000 ≤ 102400
                        · left
                          refine ⟨11, by norm_num, by norm_num, by norm_num; exact h11, ?_, ?_⟩
                          · unfold timeout_index
                            rw [timeout_table_eq, List.find?_cons_of_neg _ (by simpa using h1), List.find?_cons_of_neg _ (by simpa using h2), List.find?_cons_of_neg _ (by simpa using h3), List.find?_cons_of_neg _ (by simpa using h4), List.find?_cons_of_neg _ (by simpa using h5), List.find?_cons_of_neg _ (by simpa using h6), List.find?_cons_of_neg _ (by simpa using h7), List.find?_cons_of_neg _ (by simpa using h8), List.find?_cons_of_neg _ (by simpa using h9), List.find?_cons_of_neg _ (by simpa using h10),
                                List.find?_cons_of_pos _ (by simpa using h11)]
                          · intro m hm1 hmk hcon
                            apply h10
                            have hle := timeout_le_thresh hcon (show m - 1 ≤ 9 by omega)
                            norm_num at hle
                            exact hle
                        · by_cases h12 : t * 1000000 ≤ 204800
                          · left
                            refine ⟨12, by norm_num, by norm_num, by norm_num; exact h12, ?_, ?_⟩
                            · unfold timeout_index
                              rw [timeout_table_eq, List.find?_cons_of_neg _ (by simpa using h1), List.find?_cons_of_neg _ (by simpa using h2), List.find?_cons_of_neg _ (by simpa using h3), List.find?_cons_of_neg _ (by simpa using h4), List.find?_cons_of_neg _ (by simpa using h5), List.find?_cons_of_neg _ (by simpa using h6), List.find?_cons_of_neg _ (by simpa using h7), List.find?_cons_of_neg _ (by simpa using h8), List.find?_cons_of_neg _ (by simpa using h9), List.find?_cons_of_neg _ (by simpa using h10), List.find?_cons_of_neg _ (by simpa using h11),
                                  List.find?_cons_of_pos _ (by simpa using h12)]
                            · intro m hm1 hmk hcon
                              apply h11
                              have hle := timeout_le_thresh hcon (show m - 1 ≤ 10 by omega)
                              norm_num at hle
                              exact hle
                          · by_cases h13 : t * 1000000 ≤ 409600
                            · left
                              refine ⟨13, by norm_num, by norm_num, by norm_num; exact h13, ?_, ?_⟩
                              · unfold timeout_index
                                rw [timeout_table_eq, List.find?_cons_of_neg _ (by simpa using h1), List.find?_cons_of_neg _ (by simpa using h2), List.find?_cons_of_neg _ (by simpa using h3), List.find?_cons_of_neg _ (by simpa using h4), List.find?_cons_of_neg _ (by simpa using h5), List.find?_cons_of_neg _ (by simpa using h6), List.find?_cons_of_neg _ (by simpa using h7), List.find?_cons_of_neg _ (by simpa using h8), List.find?_cons_of_neg _ (by simpa using h9), List.find?_cons_of_neg _ (by simpa using h10), List.find?_cons_of_neg _ (by simpa using h11), List.find?_cons_of_neg _ (by simpa using h12),
                                    List.find?_cons_of_pos _ (by simpa using h13)]
                              · intro m hm1 hmk hcon
                                apply h12
                                have hle := timeout_le_thresh hcon (show m - 1 ≤ 11 by omega)
                                norm_num at hle
                                exact hle
                            · by_cases h14 : t * 1000000 ≤ 819200
                              · left
                                refine ⟨14, by norm_num, by norm_num, by norm_num; exact h14, ?_, ?_⟩
                                · unfold timeout_index
                                  rw [timeout_table_eq, List.find?_cons_of_neg _ (by simpa using h1), List.find?_cons_of_neg _ (by simpa using h2), List.find?_cons_of_neg _ (by simpa using h3), List.find?_cons_of_neg _ (by simpa using h4), List.find?_cons_of_neg _ (by simpa using h5), List.find?_cons_of_neg _ (by simpa using h6), List.find?_cons_of_neg _ (by simpa using h7), List.find?_cons_of_neg _ (by simpa using h8), List.find?_cons_of_neg _ (by simpa using h9), List.find?_cons_of_neg _ (by simpa using h10), List.find?_cons_of_neg _ (by simpa using h11), List.find?_cons_of_neg _ (by simpa using h12), List.find?_cons_of_neg _ (by simpa using h13),
                                      List.find?_cons_of_pos _ (by simpa using h14)]
                                · intro m hm1 hmk hcon
                                  apply h13
                                  have hle := timeout_le_thresh hcon (show m - 1 ≤ 12 by omega)
                                  norm_num at hle
                                  exact hle
                              · by_cases h15 : t * 1000000 ≤ 1638400
                                · left
                                  refine ⟨15, by norm_num, by norm_num, by norm_num; exact h15, ?_, ?_⟩
                                  · unfold timeout_index
                                    rw [timeout_table_eq, List.find?_cons_of_neg _ (by simpa using h1), List.find?_cons_of_neg _ (by simpa using h2), List.find?_cons_of_neg _ (by simpa using h3), List.find?_cons_of_neg _ (by simpa using h4), List.find?_cons_of_neg _ (by simpa using h5), List.find?_cons_of_neg _ (by simpa using h6), List.find?_cons_of_neg _ (by simpa using h7), List.find?_cons_of_neg _ (by simpa using h8), List.find?_cons_of_neg _ (by simpa using h9), List.find?_cons_of_neg _ (by simpa using h10), List.find?_cons_of_neg _ (by simpa using h11), List.find?_cons_of_neg _ (by simpa using h12), List.find?_cons_of_neg _ (by simpa using h13), List.find?_cons_of_neg _ (by simpa using h14),
                                        List.find?_cons_of_pos _ (by simpa using h15)]
                                  · intro m hm1 hmk hcon
                                    apply h14
                                    have hle := timeout_le_thresh hcon (show m - 1 ≤ 13 by omega)
                                    norm_num at hle
                                    exact hle
                                · by_cases h16 : t * 1000000 ≤ 3276800
                                  · left
                                    refine ⟨16, by norm_num, le_rfl, by norm_num; exact h16, ?_, ?_⟩
                                    · unfold timeout_index
                                      rw [timeout_table_eq, List.find?_cons_of_neg _ (by simpa using h1), List.find?_cons_of_neg _ (by simpa using h2), List.find?_cons_of_neg _ (by simpa using h3), List.find?_cons_of_neg _ (by simpa using h4), List.find?_cons_of_neg _ (by simpa using h5), List.find?_cons_of_neg _ (by simpa using h6), List.find?_cons_of_neg _ (by simpa using h7), List.find?_cons_of_neg _ (by simpa using h8), List.find?_cons_of_neg _ (by simpa using h9), List.find?_cons_of_neg _ (by simpa using h10), List.find?_cons_of_neg _ (by simpa using h11), List.find?_cons_of_neg _ (by simpa using h12), List.find?_cons_of_neg _ (by simpa using h13), List.find?_cons_of_neg _ (by simpa using h14), List.find?_cons_of_neg _ (by simpa using h15),
                                          List.find?_nil]
                                    · intro m hm1 hmk hcon
                                      apply h15
                                      have hle := timeout_le_thresh hcon (show m - 1 ≤ 14 by omega)
                                      norm_num at hle
                                      exact hle
                                  · right
                                    refine ⟨?_, ?_⟩
                                    · unfold timeout_index
                                      rw [timeout_table_eq, List.find?_cons_of_neg _ (by simpa using h1), List.find?_cons_of_neg _ (by simpa using h2), List.find?_cons_of_neg _ (by simpa using h3), List.find?_cons_of_neg _ (by simpa using h4), List.find?_cons_of_neg _ (by simpa using h5), List.find?_cons_of_neg _ (by simpa using h6), List.find?_cons_of_neg _ (by simpa using h7), List.find?_cons_of_neg _ (by simpa using h8), List.find?_cons_of_neg _ (by simpa using h9), List.find?_cons_of_neg _ (by simpa using h10), List.find?_cons_of_neg _ (by simpa using h11), List.find?_cons_of_neg _ (by simpa using h12), List.find?_cons_of_neg _ (by simpa using h13), List.find?_cons_of_neg _ (by simpa using h14), List.find?_cons_of_neg _ (by simpa using h15),
                                          List.find?_nil]
                                    · intro n hn1 hn16 hcon
                                      apply h16
                                      have hle := timeout_le_thresh hcon (show n - 1 ≤ 15 by omega)
                                      norm_num at hle
                                      exact hle
  · unfold timeout_index
    rw [timeout_table_eq, List.find?_cons_of_pos _ (by norm_num)]
  · unfold timeout_index
    rw [timeout_table_eq, List.find?_cons_of_neg _ (by norm_num), List.find?_cons_of_neg _ (by norm_num), List.find?_cons_of_neg _ (by norm_num), List.find?_cons_of_neg _ (by norm_num), List.find?_cons_of_neg _ (by norm_num), List.find?_cons_of_neg _ (by norm_num), List.find?_cons_of_neg _ (by norm_num), List.find?_cons_of_neg _ (by norm_num), List.find?_cons_of_neg _ (by norm_num), List.find?_cons_of_neg _ (by norm_num), List.find?_cons_of_neg _ (by norm_num), List.find?_cons_of_neg _ (by norm_num), List.find?_cons_of_neg _ (by norm_num), List.find?_cons_of_neg _ (by norm_num), List.find?_cons_of_neg _ (by norm_num),
        List.find?_nil]



/-- C2 witness: a concrete zero-target response makes `poll_a` return the
no-target value. -/
theorem poll_no_response_raises_witness :
    poll_a (some (0x4B :: 0 :: [0])) = .value none :=
  poll_no_response_raises.2.2 0x4B [0]

/-- C4 witness: the selection at the concrete timeout of five seconds. -/
theorem timeout_index_smallest_witness : timeout_index 5 = 16 :=
  timeout_index_smallest.2.2

/-- C7 witness: the checksum identities at a concrete payload. -/
theorem construct_frame_checksums_witness :
    ((construct_frame [0x4A, 0x01, 0x00]).getD 4 0 +
      (construct_frame [0x4A, 0x01, 0x00]).getD 3 0) % 256 = 0 ∧
    ((construct_frame [0x4A, 0x01, 0x00]).getD (6 + [0x4A, 0x01, 0x00].length) 0 +
      (0xD4 + [0x4A, 0x01, 0x00].sum)) % 256 = 0 :=
  construct_frame_checksums [0x4A, 0x01, 0x00]

/-- C10 witness: the failure is not the intended `RuntimeError` even with the
message the source meant to produce. -/
theorem read_registers_noresponse_name_error_witness :
    read_registers [] [0x6331] false none ≠
      .raised (.runtimeError "No response for read registers args.") :=
  read_registers_noresponse_name_error.2 "No response for read registers args."


end PN532
